import Mathlib

/-!
Shallow embedding of the aiolibsql driver core (src/src/lib.rs): value codec,
parameter marshalling, transaction policy, the execute pipeline, the cursor
fetch state machine and the connection lifecycle.  The external libsql engine
is modelled by explicit per-statement responses (`StmtResp`) and a connection
state carrying the engine-reported autocommit flag; host-side (Python) values
are modelled by `HostValue` (recording which extraction attempts succeed on a
parameter) and `PyObj` (materialised result values).
-/

namespace Aiolibsql

/-- Decidable equality for `Except`, so concrete driver outcomes can be
checked by evaluation. -/
def exceptDecEq {ε α : Type} [DecidableEq ε] [DecidableEq α] :
    (a b : Except ε α) → Decidable (a = b)
  | .error a, .error b =>
    match decEq a b with
    | .isTrue h => .isTrue (congrArg Except.error h)
    | .isFalse h => .isFalse fun hc => h (Except.error.inj hc)
  | .error _, .ok _ => .isFalse fun hc => Except.noConfusion hc
  | .ok _, .error _ => .isFalse fun hc => Except.noConfusion hc
  | .ok a, .ok b =>
    match decEq a b with
    | .isTrue h => .isTrue (congrArg Except.ok h)
    | .isFalse h => .isFalse fun hc => h (Except.ok.inj hc)

instance {ε α : Type} [DecidableEq ε] [DecidableEq α] : DecidableEq (Except ε α) :=
  exceptDecEq

/-- 64-bit float payloads are carried through the driver opaquely (the driver
performs no arithmetic on them); a payload is represented by its 64-bit
pattern. -/
abbrev F64 := Nat

/-- Engine value type (`libsql_core::Value`). -/
inductive Value where
  | null
  | integer (v : Int)
  | real (v : F64)
  | text (v : String)
  | blob (v : List Nat)
deriving DecidableEq, Repr

abbrev Row := List Value

/-- Host-side result value as produced by `convert_value`. -/
inductive PyObj where
  | pyNone
  | int (v : Int)
  | float (v : F64)
  | str (v : String)
  | bytes (v : List Nat)
deriving DecidableEq, Repr

/-- `convert_value` (lib.rs:434-442): engine value to host value. -/
def convert_value : Value → PyObj
  | .null => .pyNone
  | .integer v => .int v
  | .real v => .float v
  | .text v => .str v
  | .blob v => .bytes v

/-- A host parameter value, modelled by which of the driver's extraction
attempts succeed on it (lib.rs:420-425 tries, in order: `is_none`, `i64`,
`String`, `f64`, `Vec<u8>`). -/
structure HostValue where
  isNone : Bool
  asInt : Option Int
  asStr : Option String
  asFloat : Option F64
  asBytes : Option (List Nat)
deriving DecidableEq, Repr

/-- The per-item conversion performed by `extract_parameters` (lib.rs:420-425):
the first successful interpretation wins; a value matching no interpretation
falls back to null. -/
def convertParam (item : HostValue) : Value :=
  if item.isNone then .null
  else
    match item.asInt with
    | some v => .integer v
    | none =>
      match item.asStr with
      | some s => .text s
      | none =>
        match item.asFloat with
        | some v => .real v
        | none =>
          match item.asBytes with
          | some v => .blob v
          | none => .null

/-- `libsql_core::params::Params` as used by the driver: `Params::None` is the
explicit no-parameters marker, `Params::Positional` an ordered list. -/
inductive Params where
  | noParams
  | positional (vals : List Value)
deriving DecidableEq, Repr

/-- `extract_parameters` (lib.rs:413-432): an absent collection yields the
no-parameters marker; a present ordered collection is converted element by
element, in order. -/
def extract_parameters : Option (List HostValue) → Params
  | some items => .positional (items.map convertParam)
  | none => .noParams

/-- `LEGACY_TRANSACTION_CONTROL` (lib.rs:13). -/
def LEGACY_TRANSACTION_CONTROL : Int := -1

/-- `determine_autocommit` (lib.rs:392-394). -/
def determine_autocommit (autocommit : Int) (isolation_level : Option String) : Bool :=
  if autocommit = LEGACY_TRANSACTION_CONTROL then isolation_level.isNone
  else autocommit != 0

/-- Whitespace-trimming on the character sequence of the SQL text (the
`sql.trim()` of lib.rs:396). -/
def trimChars (l : List Char) : List Char :=
  ((l.dropWhile Char.isWhitespace).reverse.dropWhile Char.isWhitespace).reverse

/-- `stmt_is_dml` (lib.rs:395-398), over the character sequence of the SQL
text: trim, case-fold, and test for the four data-modifying keyword
prefixes.  Uppercasing is per-character ASCII, which agrees with Rust
uppercasing on the keyword characters being tested. -/
def stmt_is_dml (sql : String) : Bool :=
  let s := (trimChars sql.data).map Char.toUpper
  "INSERT".data.isPrefixOf s || "UPDATE".data.isPrefixOf s
    || "DELETE".data.isPrefixOf s || "REPLACE".data.isPrefixOf s

/-- The engine connection state observable by the driver: the autocommit flag
reported by `is_autocommit()`. -/
structure EngineConn where
  isAutocommit : Bool
deriving DecidableEq, Repr

/-- `begin_transaction` (lib.rs:388-391): issuing BEGIN puts the engine inside
a transaction, after which it stops reporting autocommit. -/
def begin_transaction (conn : EngineConn) : EngineConn :=
  { conn with isAutocommit := false }

/-- An active result set (`libsql_core::Rows`): the rows not yet yielded. -/
structure RowsStream where
  pending : List Row
deriving DecidableEq, Repr

/-- `Rows.next`: pops the next row, if any. -/
def RowsStream.next (rs : RowsStream) : Option Row × RowsStream :=
  match rs.pending with
  | [] => (none, rs)
  | r :: rest => (some r, ⟨rest⟩)

/-- The engine's response to preparing and running one statement: the declared
column count, the rows produced when queried, and the post-statement
`changes()` / `last_insert_rowid()` counter values. -/
structure StmtResp where
  columnCount : Nat
  queryRows : List Row
  changes : Int
  lastRowid : Int
deriving DecidableEq, Repr

/-- Outcome of one `execute_async` call: the updated engine connection, the new
prepared-statement slot (abstracted to its column count, the only field the
driver consults), the new result-set slot, whether an implicit BEGIN was
issued, and the counters read back from the engine. -/
structure ExecResult where
  conn : EngineConn
  stmt : Option Nat
  rows : Option RowsStream
  didBegin : Bool
  changes : Int
  lastRowid : Int
deriving DecidableEq, Repr

/-- `execute_async` (lib.rs:399-411): fails when the shared connection slot is
empty; issues an implicit BEGIN when autocommit is computed off, the statement
is DML and the engine reports autocommit; prepares the statement; queries when
the column count is positive (filling the rows slot), executes and clears the
rows slot otherwise. -/
def execute_async (connSlot : Option EngineConn) (autocommit : Int)
    (isolation_level : Option String) (sql : String) (_params : Params)
    (resp : StmtResp) : Except String ExecResult :=
  match connSlot with
  | none => .error "Connection closed"
  | some conn =>
    let doBegin := !determine_autocommit autocommit isolation_level
        && stmt_is_dml sql && conn.isAutocommit
    let conn2 := if doBegin then begin_transaction conn else conn
    let rowsSlot : Option RowsStream :=
      if resp.columnCount > 0 then some ⟨resp.queryRows⟩ else none
    .ok { conn := conn2, stmt := some resp.columnCount, rows := rowsSlot,
          didBegin := doBegin, changes := resp.changes,
          lastRowid := resp.lastRowid }

/-- Cursor state (lib.rs:226-239).  The shared physical connection slot (one
`Arc` shared by the Connection and all its cursors) is held separately and
passed alongside each operation that touches it. -/
structure Cursor where
  arraysize : Nat
  stmt : Option Nat
  rows : Option RowsStream
  rowcount : Int
  lastrowid : Int
  done : Bool
deriving DecidableEq, Repr

/-- `Connection.cursor` (lib.rs:119-131): a fresh cursor with empty slots. -/
def Connection.cursor : Cursor :=
  { arraysize := 1, stmt := none, rows := none, rowcount := 0,
    lastrowid := 0, done := false }

/-- `Cursor.fetchone` (lib.rs:303-322).  The third component counts the
`Rows.next` calls issued to the engine.  Note the source neither consults nor
updates the `done` flag here. -/
def Cursor.fetchone (c : Cursor) : Option (List PyObj) × Cursor × Nat :=
  match c.rows with
  | none => (none, c, 0)
  | some rs =>
    match rs.next with
    | (some r, rs2) => (some (r.map convert_value), { c with rows := some rs2 }, 1)
    | (none, rs2) => (none, { c with rows := some rs2 }, 1)

/-- The inner loop of `fetchmany` (lib.rs:333-342): read up to `n` rows,
stopping and raising the done flag on the first empty read.  Returns the
collected rows, the remaining stream, the new done flag and the number of
`Rows.next` calls issued. -/
def fetchmanyLoop : Nat → List Row → List Row × List Row × Bool × Nat
  | 0, pending => ([], pending, false, 0)
  | _ + 1, [] => ([], [], true, 1)
  | n + 1, r :: rest =>
    match fetchmanyLoop n rest with
    | (acc, pending, d, k) => (r :: acc, pending, d, k + 1)

/-- `Cursor.fetchmany` (lib.rs:323-356): short-circuits when the done flag is
already set, otherwise reads up to `size` rows (default `arraysize`). -/
def Cursor.fetchmany (c : Cursor) (size : Option Nat) :
    List (List PyObj) × Cursor × Nat :=
  let n := size.getD c.arraysize
  match c.rows with
  | none => ([], c, 0)
  | some rs =>
    if c.done then ([], c, 0)
    else
      match fetchmanyLoop n rs.pending with
      | (data, pending, d, k) =>
        (data.map fun r => r.map convert_value,
         { c with rows := some ⟨pending⟩, done := d }, k)

/-- `Cursor.fetchall` (lib.rs:357-381): drains unconditionally (the done flag
is neither consulted nor set); the final `Rows.next` returning no row is still
issued, hence `length + 1` engine reads. -/
def Cursor.fetchall (c : Cursor) : List (List PyObj) × Cursor × Nat :=
  match c.rows with
  | none => ([], c, 0)
  | some rs =>
    (rs.pending.map fun r => r.map convert_value,
     { c with rows := some ⟨[]⟩ }, rs.pending.length + 1)

/-- `Connection.close` (lib.rs:112-118): takes the handle out of the shared
slot and drops it. -/
def Connection.close (_connSlot : Option EngineConn) : Option EngineConn :=
  none

/-- `Connection.commit` (lib.rs:139-148): issues COMMIT only when the handle is
present and the engine reports a transaction open; the Bool records whether
COMMIT was sent to the engine. -/
def Connection.commit (connSlot : Option EngineConn) : Option EngineConn × Bool :=
  match connSlot with
  | none => (none, false)
  | some conn =>
    if !conn.isAutocommit then (some { conn with isAutocommit := true }, true)
    else (some conn, false)

/-- `Connection.rollback` (lib.rs:149-158): same shape as `commit`. -/
def Connection.rollback (connSlot : Option EngineConn) : Option EngineConn × Bool :=
  match connSlot with
  | none => (none, false)
  | some conn =>
    if !conn.isAutocommit then (some { conn with isAutocommit := true }, true)
    else (some conn, false)

/-- `Connection.executescript` (lib.rs:190-199) and `Cursor.executescript`
(lib.rs:283-290): when the handle is absent the batch is silently skipped and
the call still succeeds; the Bool records whether the script reached the
engine. -/
def Connection.executescript (connSlot : Option EngineConn) (_script : String) :
    Except String Bool :=
  match connSlot with
  | some _ => .ok true
  | none => .ok false

/-- `Cursor.execute` (lib.rs:250-262): one `execute_async`, then store the
returned counters and slots on the cursor.  The `done` flag is not reset. -/
def Cursor.execute (c : Cursor) (connSlot : Option EngineConn) (autocommit : Int)
    (isolation_level : Option String) (sql : String) (params : Params)
    (resp : StmtResp) : Except String (Option EngineConn × Cursor) :=
  match execute_async connSlot autocommit isolation_level sql params resp with
  | .error e => .error e
  | .ok res =>
    .ok (some res.conn,
      { c with stmt := res.stmt, rows := res.rows,
               rowcount := res.changes, lastrowid := res.lastRowid })

/-- `Connection.execute` (lib.rs:159-170): runs on a fresh cursor. -/
def Connection.execute (connSlot : Option EngineConn) (autocommit : Int)
    (isolation_level : Option String) (sql : String) (params : Params)
    (resp : StmtResp) : Except String (Option EngineConn × Cursor) :=
  Cursor.execute Connection.cursor connSlot autocommit isolation_level sql
    params resp

/-- Accumulator state of the `executemany` loop (lib.rs:181-185, 274-278). -/
structure ManyState where
  conn : Option EngineConn
  stmt : Option Nat
  rows : Option RowsStream
  tc : Int
  lr : Int
deriving DecidableEq, Repr

/-- The loop of `executemany`: one `execute_async` per parameter set, in
order, accumulating the total change count and keeping only the last row
id. -/
def executemanyLoop (autocommit : Int) (isolation_level : Option String)
    (sql : String) : ManyState → List (Params × StmtResp) →
    Except String ManyState
  | st, [] => .ok st
  | st, pr :: rest =>
    match execute_async st.conn autocommit isolation_level sql pr.1 pr.2 with
    | .error e => .error e
    | .ok res =>
      executemanyLoop autocommit isolation_level sql
        { conn := some res.conn, stmt := res.stmt, rows := res.rows,
          tc := st.tc + res.changes, lr := res.lastRowid } rest

/-- `Cursor.executemany` (lib.rs:263-282) and `Connection.executemany`
(lib.rs:172-189): run the loop from zero accumulators, then store the totals
on the cursor. -/
def Cursor.executemany (c : Cursor) (connSlot : Option EngineConn)
    (autocommit : Int) (isolation_level : Option String) (sql : String)
    (plist : List (Params × StmtResp)) :
    Except String (Option EngineConn × Cursor) :=
  match executemanyLoop autocommit isolation_level sql
      { conn := connSlot, stmt := c.stmt, rows := c.rows, tc := 0, lr := 0 }
      plist with
  | .error e => .error e
  | .ok st =>
    .ok (st.conn, { c with stmt := st.stmt, rows := st.rows,
                           rowcount := st.tc, lastrowid := st.lr })

/-- `Cursor.close` (lib.rs:243-249): note the source takes from the SHARED
connection slot (`self.conn`, the same `Arc` the Connection and all sibling
cursors hold), not only from the cursor's own statement and rows slots. -/
def Cursor.close (c : Cursor) (_connSlot : Option EngineConn) :
    Option EngineConn × Cursor :=
  (none, { c with stmt := none, rows := none })

/-- Caller-side pagination harness: repeatedly `fetchmany n` until the cursor
reports exhaustion (fuel-bounded to make termination evident). -/
def fetchmanyDrain (n : Nat) : Nat → Cursor → List (List PyObj)
  | 0, _ => []
  | fuel + 1, c =>
    if c.done then []
    else
      match c.fetchmany (some n) with
      | (batch, c2, _) => batch ++ fetchmanyDrain n fuel c2

/-- C7: the transaction policy: at the legacy sentinel, autocommit holds iff
no isolation level is configured; at any other mode value, autocommit is the
boolean value of the mode itself. -/
theorem determine_autocommit_spec (ac : Int) (isl : Option String) :
    determine_autocommit LEGACY_TRANSACTION_CONTROL isl = isl.isNone ∧
    (ac ≠ LEGACY_TRANSACTION_CONTROL → determine_autocommit ac isl = (ac != 0)) := by
  constructor
  · simp [determine_autocommit]
  · intro h
    simp [determine_autocommit, h]

theorem determine_autocommit_spec_witness :
    determine_autocommit LEGACY_TRANSACTION_CONTROL (some "DEFERRED")
        = (some "DEFERRED" : Option String).isNone ∧
    determine_autocommit 5 (some "DEFERRED") = ((5 : Int) != 0) :=
  ⟨(determine_autocommit_spec 5 (some "DEFERRED")).1,
   (determine_autocommit_spec 5 (some "DEFERRED")).2 (by decide)⟩

/-- C8: on an open connection, `commit` and `rollback` send COMMIT/ROLLBACK to
the engine iff the engine reports itself NOT in autocommit state; otherwise
they are no-ops, so two sequential commits with no open transaction both
complete as no-ops. -/
theorem commit_rollback_spec (c : EngineConn) :
    ((Connection.commit (some c)).2 = true ↔ c.isAutocommit = false) ∧
    ((Connection.rollback (some c)).2 = true ↔ c.isAutocommit = false) ∧
    (c.isAutocommit = true →
      Connection.commit (some c) = (some c, false) ∧
      Connection.commit (Connection.commit (some c)).1 = (some c, false)) := by
  obtain ⟨b⟩ := c
  cases b <;> simp [Connection.commit, Connection.rollback]

theorem commit_rollback_spec_witness :
    ((Connection.commit (some ⟨true⟩)).2 = true
        ↔ (⟨true⟩ : EngineConn).isAutocommit = false) ∧
    (Connection.commit (some ⟨true⟩) = (some ⟨true⟩, false) ∧
     Connection.commit (Connection.commit (some ⟨true⟩)).1 = (some ⟨true⟩, false)) :=
  ⟨(commit_rollback_spec ⟨true⟩).1, (commit_rollback_spec ⟨true⟩).2.2 rfl⟩

/-- C10: `Cursor.close` empties the SHARED physical connection slot, so every
subsequent execute on the owning Connection or on a sibling cursor sharing
that slot fails with the "Connection closed" condition. -/
theorem cursor_close_shared_conn (c sib : Cursor) (slot : Option EngineConn)
    (ac : Int) (isl : Option String) (sql : String) (params : Params)
    (resp : StmtResp) :
    (Cursor.close c slot).1 = none ∧
    Cursor.execute sib (Cursor.close c slot).1 ac isl sql params resp
        = .error "Connection closed" ∧
    Connection.execute (Cursor.close c slot).1 ac isl sql params resp
        = .error "Connection closed" :=
  ⟨rfl, rfl, rfl⟩

/-- C3 counterexample: after `close` the handle is absent, yet `executescript`
completes successfully (silently skipping the batch), and `commit` and
`rollback` also complete as no-ops, instead of failing with a
"connection closed" condition. -/
theorem closed_ops_counterexample :
    Connection.close (some ⟨true⟩) = none ∧
    Connection.executescript (Connection.close (some ⟨true⟩)) "CREATE TABLE t(x)"
        = .ok false ∧
    Connection.commit (Connection.close (some ⟨true⟩)) = (none, false) ∧
    Connection.rollback (Connection.close (some ⟨true⟩)) = (none, false) :=
  ⟨rfl, rfl, rfl, rfl⟩

/-- C3 amended: after `close` the physical handle is absent; `execute` (on the
Connection or on any cursor sharing the handle) and every `executemany` with
at least one parameter set fail with the "Connection closed" condition, while
`executescript`, `commit` and `rollback` complete silently as no-ops (and an
`executemany` with zero parameter sets also succeeds). -/
theorem closed_ops_amended (slot : Option EngineConn) (ac : Int)
    (isl : Option String) (sql script : String) (params : Params)
    (resp : StmtResp) (cur : Cursor) (pr : Params × StmtResp)
    (rest : List (Params × StmtResp)) :
    Connection.close slot = none ∧
    execute_async none ac isl sql params resp = .error "Connection closed" ∧
    Cursor.execute cur none ac isl sql params resp = .error "Connection closed" ∧
    Connection.execute none ac isl sql params resp = .error "Connection closed" ∧
    Cursor.executemany cur none ac isl sql (pr :: rest)
        = .error "Connection closed" ∧
    Cursor.executemany cur none ac isl sql []
        = .ok (none, { cur with rowcount := 0, lastrowid := 0 }) ∧
    Connection.executescript none script = .ok false ∧
    Connection.commit none = (none, false) ∧
    Connection.rollback none = (none, false) :=
  ⟨rfl, rfl, rfl, rfl, rfl, rfl, rfl, rfl, rfl⟩

/-- C2 counterexample: on a cursor whose exhaustion flag is set (and whose
stream is drained), `fetchone` and `fetchall` each still issue a `Rows.next`
engine read (the third component counts them), contradicting the claim that no
further engine row-fetch is invoked. -/
theorem exhausted_fetch_counterexample :
    ((⟨1, none, some ⟨[]⟩, 0, 0, true⟩ : Cursor).done = true) ∧
    (⟨1, none, some ⟨[]⟩, 0, 0, true⟩ : Cursor).fetchone.2.2 ≠ 0 ∧
    (⟨1, none, some ⟨[]⟩, 0, 0, true⟩ : Cursor).fetchall.2.2 ≠ 0 := by
  decide

/-- C2 amended: once the exhaustion flag is set and the result stream is
drained, `fetchone`, `fetchmany` and `fetchall` all return empty results;
`fetchmany` short-circuits with no engine read, but `fetchone` and `fetchall`
each still issue one further `Rows.next` call (which yields no row). -/
theorem exhausted_fetch_amended (c : Cursor) (size : Option Nat)
    (hd : c.done = true) (hr : c.rows = some ⟨[]⟩) :
    c.fetchone = (none, c, 1) ∧
    c.fetchmany size = ([], c, 0) ∧
    c.fetchall = ([], c, 1) := by
  obtain ⟨a, s, r, rc, lr, d⟩ := c
  simp only [Cursor.mk.injEq] at hr ⊢
  subst hr hd
  simp [Cursor.fetchone, Cursor.fetchmany, Cursor.fetchall, RowsStream.next]

theorem exhausted_fetch_amended_witness :
    (⟨1, none, some ⟨[]⟩, 0, 0, true⟩ : Cursor).fetchone
        = (none, ⟨1, none, some ⟨[]⟩, 0, 0, true⟩, 1) ∧
    (⟨1, none, some ⟨[]⟩, 0, 0, true⟩ : Cursor).fetchmany none
        = ([], ⟨1, none, some ⟨[]⟩, 0, 0, true⟩, 0) ∧
    (⟨1, none, some ⟨[]⟩, 0, 0, true⟩ : Cursor).fetchall
        = ([], ⟨1, none, some ⟨[]⟩, 0, 0, true⟩, 1) :=
  exhausted_fetch_amended ⟨1, none, some ⟨[]⟩, 0, 0, true⟩ none rfl rfl

/-- C4 counterexample: a cursor with an active but empty result stream and the
exhaustion flag clear: `fetchone` returns the absent value (first empty read)
yet the exhaustion flag is still clear afterwards, contradicting "sets the
cursor's exhaustion flag on the first empty read". -/
theorem fetchone_flag_counterexample :
    (⟨1, none, some ⟨[]⟩, 0, 0, false⟩ : Cursor).fetchone.1 = none ∧
    (⟨1, none, some ⟨[]⟩, 0, 0, false⟩ : Cursor).fetchone.2.1.done = false := by
  decide

/-- C4 amended: `fetchone` advances the active result-set by exactly one row,
returns the absent value once the stream is empty (or the result-set slot is
absent), and never modifies the exhaustion flag — only `fetchmany` sets it. -/
theorem fetchone_amended (c : Cursor) (r : Row) (rest : List Row) :
    (c.rows = some ⟨r :: rest⟩ →
      c.fetchone = (some (r.map convert_value), { c with rows := some ⟨rest⟩ }, 1)) ∧
    (c.rows = some ⟨[]⟩ → c.fetchone = (none, c, 1)) ∧
    (c.rows = none → c.fetchone = (none, c, 0)) ∧
    c.fetchone.2.1.done = c.done := by
  refine ⟨?_, ?_, ?_, ?_⟩
  · intro h
    simp [Cursor.fetchone, h, RowsStream.next]
  · intro h
    obtain ⟨a, s, ro, rc, lr, d⟩ := c
    simp only [Cursor.mk.injEq] at h ⊢
    subst h
    simp [Cursor.fetchone, RowsStream.next]
  · intro h
    simp [Cursor.fetchone, h]
  · obtain ⟨a, s, ro, rc, lr, d⟩ := c
    cases ro with
    | none => simp [Cursor.fetchone]
    | some rs =>
      obtain ⟨pending⟩ := rs
      cases pending <;> simp [Cursor.fetchone, RowsStream.next]

theorem fetchone_amended_witness :
    ((⟨1, none, some ⟨[[Value.integer 7]]⟩, 0, 0, false⟩ : Cursor).fetchone
        = (some ([Value.integer 7].map convert_value),
           ⟨1, none, some ⟨[]⟩, 0, 0, false⟩, 1)) ∧
    ((⟨1, none, some ⟨[]⟩, 0, 0, false⟩ : Cursor).fetchone
        = (none, ⟨1, none, some ⟨[]⟩, 0, 0, false⟩, 1)) :=
  ⟨(fetchone_amended ⟨1, none, some ⟨[[Value.integer 7]]⟩, 0, 0, false⟩
      [Value.integer 7] []).1 rfl,
   (fetchone_amended ⟨1, none, some ⟨[]⟩, 0, 0, false⟩ [] []).2.1 rfl⟩

/-- C1: for every execute on an open connection (every entry point funnels
through `execute_async`: Connection.execute, Cursor.execute, and each
iteration of executemany), an implicit BEGIN is issued iff the computed
autocommit is false AND the trimmed, case-folded SQL begins with
INSERT/UPDATE/DELETE/REPLACE AND the engine currently reports autocommit; in
particular no non-DML statement ever triggers an implicit BEGIN. -/
theorem execute_async_begin_iff (c : EngineConn) (ac : Int) (isl : Option String)
    (sql : String) (params : Params) (resp : StmtResp) (res : ExecResult)
    (h : execute_async (some c) ac isl sql params resp = .ok res) :
    (res.didBegin = true ↔
      determine_autocommit ac isl = false ∧ stmt_is_dml sql = true
        ∧ c.isAutocommit = true) ∧
    (stmt_is_dml sql = false → res.didBegin = false) := by
  simp only [execute_async] at h
  injection h with h
  subst h
  constructor
  · simp [Bool.and_eq_true, Bool.not_eq_true', and_assoc]
  · intro hdml
    simp [hdml]

theorem execute_async_begin_iff_witness :
    (execute_async (some ⟨true⟩) 0 none "INSERT INTO t(v) VALUES (1)"
        Params.noParams ⟨0, [], 1, 1⟩ = .ok ⟨⟨false⟩, some 0, none, true, 1, 1⟩) ∧
    (((⟨⟨false⟩, some 0, none, true, 1, 1⟩ : ExecResult).didBegin = true ↔
        determine_autocommit 0 none = false ∧
        stmt_is_dml "INSERT INTO t(v) VALUES (1)" = true ∧
        (⟨true⟩ : EngineConn).isAutocommit = true) ∧
      (stmt_is_dml "INSERT INTO t(v) VALUES (1)" = false →
        (⟨⟨false⟩, some 0, none, true, 1, 1⟩ : ExecResult).didBegin = false)) :=
  ⟨by decide,
   execute_async_begin_iff ⟨true⟩ 0 none "INSERT INTO t(v) VALUES (1)"
     Params.noParams ⟨0, [], 1, 1⟩ ⟨⟨false⟩, some 0, none, true, 1, 1⟩ (by decide)⟩

/-- Closed form of the `fetchmany` inner loop: it takes the first `n` pending
rows, leaves the rest, raises the done flag exactly when the stream ran out
within the budget, and issues `min n (length + 1)` engine reads. -/
theorem fetchmanyLoop_spec (n : Nat) :
    ∀ l : List Row,
      fetchmanyLoop n l = (l.take n, l.drop n, decide (l.length < n),
        min n (l.length + 1)) := by
  induction n with
  | zero =>
    intro l
    simp [fetchmanyLoop]
  | succ n ih =>
    intro l
    cases l with
    | nil => simp [fetchmanyLoop, Nat.succ_min_succ]
    | cons r rest =>
      simp [fetchmanyLoop, ih rest, Nat.succ_min_succ, Nat.succ_lt_succ_iff]

/-- Closed form of `Cursor.fetchmany` on an active, non-exhausted cursor. -/
theorem fetchmany_closed_form (c : Cursor) (n : Nat) (l : List Row)
    (hr : c.rows = some ⟨l⟩) (hd : c.done = false) :
    c.fetchmany (some n) =
      ((l.take n).map fun r => r.map convert_value,
       { c with rows := some ⟨l.drop n⟩, done := decide (l.length < n) },
       min n (l.length + 1)) := by
  unfold Cursor.fetchmany
  rw [hr]
  simp [hd, fetchmanyLoop_spec]

/-- A drain loop started on an already-exhausted cursor collects nothing. -/
theorem fetchmanyDrain_done (n fuel : Nat) (c : Cursor) (hd : c.done = true) :
    fetchmanyDrain n fuel c = [] := by
  cases fuel with
  | zero => rfl
  | succ fuel => simp [fetchmanyDrain, hd]

/-- C5: for every active result-set and positive batch size `n`, repeatedly
calling `fetchmany n` until exhaustion yields the same rows in the same order
as a single `fetchall` issued from the same starting position. -/
theorem fetchmany_drain_eq_fetchall (n fuel : Nat) (c : Cursor) (l : List Row)
    (hn : 0 < n) (hr : c.rows = some ⟨l⟩) (hd : c.done = false)
    (hf : l.length < fuel) :
    fetchmanyDrain n fuel c = c.fetchall.1 := by
  induction fuel generalizing c l with
  | zero => omega
  | succ fuel ih =>
    simp only [fetchmanyDrain, hd, if_neg Bool.false_ne_true,
      fetchmany_closed_form c n l hr hd]
    by_cases hlen : l.length < n
    · rw [fetchmanyDrain_done n fuel _ (by simp [hlen])]
      simp [Cursor.fetchall, hr, List.take_of_length_le (Nat.le_of_lt hlen)]
    · rw [ih { c with rows := some ⟨l.drop n⟩, done := decide (l.length < n) }
        (l.drop n) rfl (by simp [hlen]) (by simp; omega)]
      simp [Cursor.fetchall, hr, ← List.map_append]

theorem fetchmany_drain_eq_fetchall_witness :
    0 < 2 ∧
    (⟨1, none, some ⟨[[Value.integer 1], [Value.integer 2], [Value.integer 3]]⟩,
        0, 0, false⟩ : Cursor).rows
      = some ⟨[[Value.integer 1], [Value.integer 2], [Value.integer 3]]⟩ ∧
    fetchmanyDrain 2 4
        ⟨1, none, some ⟨[[Value.integer 1], [Value.integer 2], [Value.integer 3]]⟩,
         0, 0, false⟩
      = (⟨1, none, some ⟨[[Value.integer 1], [Value.integer 2], [Value.integer 3]]⟩,
         0, 0, false⟩ : Cursor).fetchall.1 :=
  ⟨by decide, rfl,
   fetchmany_drain_eq_fetchall 2 4
     ⟨1, none, some ⟨[[Value.integer 1], [Value.integer 2], [Value.integer 3]]⟩,
      0, 0, false⟩
     [[Value.integer 1], [Value.integer 2], [Value.integer 3]]
     (by decide) rfl rfl (by decide)⟩

/-- On an open connection, `execute_async` always reports the engine's
per-statement change count and last row id. -/
theorem execute_async_some_ok (c : EngineConn) (ac : Int) (isl : Option String)
    (sql : String) (params : Params) (resp : StmtResp) :
    ∃ res, execute_async (some c) ac isl sql params resp = .ok res ∧
      res.changes = resp.changes ∧ res.lastRowid = resp.lastRowid :=
  ⟨_, rfl, rfl, rfl⟩

/-- The `executemany` loop on an open connection always succeeds, adds the
per-statement change counts to the accumulator, and folds the last row id
through the parameter sets in order. -/
theorem executemanyLoop_ok (ac : Int) (isl : Option String) (sql : String) :
    ∀ (plist : List (Params × StmtResp)) (st : ManyState) (c : EngineConn),
      st.conn = some c →
      ∃ st', executemanyLoop ac isl sql st plist = .ok st' ∧
        st'.tc = st.tc + (plist.map fun pr => pr.2.changes).sum ∧
        st'.lr = plist.foldl (fun _ pr => pr.2.lastRowid) st.lr := by
  intro plist
  induction plist with
  | nil =>
    intro st c hc
    exact ⟨st, rfl, by simp, by simp⟩
  | cons pr rest ih =>
    intro st c hc
    obtain ⟨res, hres, hch, hlr⟩ := execute_async_some_ok c ac isl sql pr.1 pr.2
    obtain ⟨st', hloop, htc, hlr'⟩ :=
      ih { conn := some res.conn, stmt := res.stmt, rows := res.rows,
           tc := st.tc + res.changes, lr := res.lastRowid } res.conn rfl
    refine ⟨st', ?_, ?_, ?_⟩
    · simp only [executemanyLoop]
      rw [hc, hres]
      exact hloop
    · rw [htc]
      simp [hch, Int.add_assoc]
    · rw [hlr']
      simp [hlr]

/-- C6: after a successful `executemany` over parameter sets executed
sequentially in order, the cursor's `rowcount` is the sum of the per-statement
engine-reported change counts, and `lastrowid` is the engine-reported row id
of the last statement. -/
theorem executemany_counts (cur : Cursor) (c0 : EngineConn) (ac : Int)
    (isl : Option String) (sql : String)
    (front plist : List (Params × StmtResp)) (pLast : Params × StmtResp)
    (connOut : Option EngineConn) (curOut : Cursor)
    (h : Cursor.executemany cur (some c0) ac isl sql plist = .ok (connOut, curOut))
    (hsplit : plist = front ++ [pLast]) :
    curOut.rowcount = (plist.map fun pr => pr.2.changes).sum ∧
    curOut.lastrowid = pLast.2.lastRowid := by
  obtain ⟨st', hloop, htc, hlr⟩ :=
    executemanyLoop_ok ac isl sql plist
      { conn := some c0, stmt := cur.stmt, rows := cur.rows, tc := 0, lr := 0 }
      c0 rfl
  unfold Cursor.executemany at h
  rw [hloop] at h
  injection h with h
  injection h with h1 h2
  subst h2
  simp only []
  constructor
  · rw [htc]
    simp
  · rw [hlr, hsplit]
    simp [List.foldl_append]

theorem executemany_counts_witness :
    (⟨1, some 0, none, 3, 9, false⟩ : Cursor).rowcount
        = ([((Params.noParams : Params), (⟨0, [], 1, 5⟩ : StmtResp)),
            (Params.noParams, ⟨0, [], 2, 9⟩)].map fun pr => pr.2.changes).sum ∧
    (⟨1, some 0, none, 3, 9, false⟩ : Cursor).lastrowid
        = ((Params.noParams : Params), (⟨0, [], 2, 9⟩ : StmtResp)).2.lastRowid :=
  executemany_counts Connection.cursor ⟨true⟩ 1 none "INSERT INTO t(v) VALUES (1)"
    [(Params.noParams, ⟨0, [], 1, 5⟩)]
    [(Params.noParams, ⟨0, [], 1, 5⟩), (Params.noParams, ⟨0, [], 2, 9⟩)]
    (Params.noParams, ⟨0, [], 2, 9⟩)
    (some ⟨true⟩) ⟨1, some 0, none, 3, 9, false⟩ (by decide) rfl

/-- C9: the marshaller maps an absent collection to the explicit no-parameters
marker, and a present ordered collection of length n to a positional list of
exactly length n in the same order, each element converted by trying, in
order: absence to null, 64-bit integer, UTF-8 string, 64-bit float, byte
sequence — the first successful interpretation wins and a value matching none
becomes null. -/
theorem extract_parameters_spec (items : List HostValue) (item : HostValue) :
    extract_parameters none = Params.noParams ∧
    (∃ vals, extract_parameters (some items) = Params.positional vals ∧
      vals.length = items.length ∧
      ∀ i : Nat, vals[i]? = (items[i]?).map convertParam) ∧
    (item.isNone = true → convertParam item = Value.null) ∧
    (∀ v, item.isNone = false → item.asInt = some v →
      convertParam item = Value.integer v) ∧
    (∀ s, item.isNone = false → item.asInt = none → item.asStr = some s →
      convertParam item = Value.text s) ∧
    (∀ v, item.isNone = false → item.asInt = none → item.asStr = none →
      item.asFloat = some v → convertParam item = Value.real v) ∧
    (∀ b, item.isNone = false → item.asInt = none → item.asStr = none →
      item.asFloat = none → item.asBytes = some b →
      convertParam item = Value.blob b) ∧
    (item.isNone = false → item.asInt = none → item.asStr = none →
      item.asFloat = none → item.asBytes = none →
      convertParam item = Value.null) := by
  refine ⟨rfl, ⟨items.map convertParam, rfl, by simp, fun i => by simp⟩,
    ?_, ?_, ?_, ?_, ?_, ?_⟩
  · intro h1
    simp [convertParam, h1]
  · intro v h1 h2
    simp [convertParam, h1, h2]
  · intro s h1 h2 h3
    simp [convertParam, h1, h2, h3]
  · intro v h1 h2 h3 h4
    simp [convertParam, h1, h2, h3, h4]
  · intro b h1 h2 h3 h4 h5
    simp [convertParam, h1, h2, h3, h4, h5]
  · intro h1 h2 h3 h4 h5
    simp [convertParam, h1, h2, h3, h4, h5]

theorem extract_parameters_spec_witness :
    convertParam ⟨true, some 3, none, none, none⟩ = Value.null ∧
    convertParam ⟨false, some 3, some "x", none, none⟩ = Value.integer 3 ∧
    convertParam ⟨false, none, some "x", none, none⟩ = Value.text "x" ∧
    convertParam ⟨false, none, none, none, none⟩ = Value.null ∧
    (∃ vals, extract_parameters
        (some [⟨true, none, none, none, none⟩, ⟨false, some 3, none, none, none⟩])
        = Params.positional vals ∧
      vals.length = [(⟨true, none, none, none, none⟩ : HostValue),
        ⟨false, some 3, none, none, none⟩].length ∧
      ∀ i : Nat, vals[i]?
        = ([(⟨true, none, none, none, none⟩ : HostValue),
            ⟨false, some 3, none, none, none⟩][i]?).map convertParam) :=
  ⟨(extract_parameters_spec [] ⟨true, some 3, none, none, none⟩).2.2.1 rfl,
   (extract_parameters_spec [] ⟨false, some 3, some "x", none, none⟩).2.2.2.1
     3 rfl rfl,
   (extract_parameters_spec [] ⟨false, none, some "x", none, none⟩).2.2.2.2.1
     "x" rfl rfl rfl,
   (extract_parameters_spec [] ⟨false, none, none, none, none⟩).2.2.2.2.2.2.2
     rfl rfl rfl rfl rfl,
   (extract_parameters_spec
     [⟨true, none, none, none, none⟩, ⟨false, some 3, none, none, none⟩]
     ⟨false, none, none, none, none⟩).2.1⟩

end Aiolibsql
